import Mathlib

/-!
Verification of the mpbridge session core (`mpbridge.py`) against its
natural-language specification.

The development shallowly embeds the parts of the program the claims are
about:

* byte strings are `List Nat` (each element one byte value);
* the Windows PTY read post-processing (`WindowsPTYProcess.read` together
  with `_filter_escape_sequences`), with the `re.sub` CSI deletion and the
  Python `bytes.replace` normalization modelled exactly;
* the Windows `poll` including its exception-to-`0` collapse;
* `VirtualSerialPort` (`read`, `write`, `update_in_waiting`,
  `_update_raw_repl_state_from_response`) as explicit state passing, with
  the PTY modelled as an oracle that can also raise;
* the redirector restart dance (`_handle_process_exit`,
  `_reenter_raw_repl` and its drain loop);
* the accept loop plus connection guard of `run_server_loop` as a step
  relation on a bridge state, executed by an explicit action list.

Timeouts are represented in integer milliseconds (every timeout constant in
the source is a whole number of milliseconds).
-/

namespace MpBridge

/-! ### Byte-string helpers -/

/-- The bytes of an ASCII string literal, as `List Nat`. -/
def strBytes (s : String) : List Nat :=
  s.toList.map Char.toNat

/-- Python `needle in haystack` on byte strings: substring containment. -/
def containsBytes (needle : List Nat) : List Nat → Bool
  | [] => needle.isPrefixOf []
  | b :: rest => needle.isPrefixOf (b :: rest) || containsBytes needle rest

/-- Python `bytes.rstrip()` whitespace set: space, tab, LF, CR, VT, FF. -/
def isPySpace (b : Nat) : Bool :=
  b = 32 || b = 9 || b = 10 || b = 13 || b = 11 || b = 12

/-- Python `bytes.rstrip()`: drop trailing ASCII whitespace. -/
def pyRstrip (s : List Nat) : List Nat :=
  (s.reverse.dropWhile isPySpace).reverse

/-! ### Constants from the source (`mpbridge.py` top of file) -/

/-- `CTRL_A = b"\x01"` — enter raw REPL. -/
def CTRL_A : Nat := 1

/-- `CTRL_B = b"\x02"` — exit raw REPL. -/
def CTRL_B : Nat := 2

/-- `MPREMOTE_SOFT_REBOOT = b"soft reboot\r\n"`. -/
def MPREMOTE_SOFT_REBOOT : List Nat := strBytes "soft reboot\r\n"

/-- `MPREMOTE_RAW_REPL_SOFT_REBOOT`, the fabricated raw-REPL reply. -/
def MPREMOTE_RAW_REPL_SOFT_REBOOT : List Nat :=
  strBytes "OK\r\nMPY: soft reboot\r\nraw REPL; CTRL-B to exit\r\n>"

/-- The raw-REPL banner substring tested by the code. -/
def RAW_REPL_BANNER : List Nat := strBytes "raw REPL; CTRL-B to exit"

/-- `MP_BRIDGE_READ_BUFFER_SIZE = 4096`. -/
def MP_BRIDGE_READ_BUFFER_SIZE : Nat := 4096

/-- `MP_BRIDGE_READ_TIMEOUT = 0.01` (10 ms), in milliseconds. -/
def MP_BRIDGE_READ_TIMEOUT_MS : Nat := 10

/-- `MP_BRIDGE_DRAIN_TIMEOUT = 0.05` (50 ms), in milliseconds. -/
def MP_BRIDGE_DRAIN_TIMEOUT_MS : Nat := 50

/-- The timeout `main()` passes to `VirtualSerialPort` (`timeout=0.1`),
in milliseconds. -/
def MAIN_VIRTUAL_SERIAL_TIMEOUT_MS : Nat := 100

/-- The rejection banner sent by `_reject_pending_connections`. -/
def REJECTION_BANNER : List Nat :=
  strBytes "\r\nError: Device busy - another client is connected\r\n"

/-! ### Windows PTY read post-processing

`WindowsPTYProcess.read` encodes the string pywinpty returned, then
1. normalizes `\r\r\n` to `\r\n` with `bytes.replace`,
2. deletes CSI sequences with `re.sub(rb"\x1b\[[0-9;?]*[a-zA-Z]", b"", ...)`.
-/

/-- Python `data.replace(b"\r\r\n", b"\r\n")`: left-to-right scan, replace a
non-overlapping occurrence and continue after the replacement. -/
def replace_crcrlf : List Nat → List Nat
  | 13 :: 13 :: 10 :: rest => 13 :: 10 :: replace_crcrlf rest
  | b :: rest => b :: replace_crcrlf rest
  | [] => []

/-- CSI parameter bytes `[0-9;?]`. -/
def isParamByte (b : Nat) : Bool :=
  (decide (48 ≤ b) && decide (b ≤ 57)) || b = 59 || b = 63

/-- Final letters `[a-zA-Z]`. -/
def isLetterByte (b : Nat) : Bool :=
  (decide (65 ≤ b) && decide (b ≤ 90)) || (decide (97 ≤ b) && decide (b ≤ 122))

/-- Body of the CSI deletion, with a structural fuel argument so that the
function reduces definitionally.  Every recursive call passes a strictly
shorter list (`rest3` drops at least three bytes, `rest` drops two, a tail
drops one, while the fuel drops by one), so with initial fuel `s.length`
the `0` case is never reached. -/
def filter_escape_aux : Nat → List Nat → List Nat
  | 0, s => s
  | fuel + 1, s =>
    match s with
    | 27 :: 91 :: rest =>
      match rest.dropWhile isParamByte with
      | c :: rest3 =>
        if isLetterByte c then filter_escape_aux fuel rest3
        else 27 :: 91 :: filter_escape_aux fuel rest
      | [] => 27 :: 91 :: filter_escape_aux fuel rest
    | b :: rest => b :: filter_escape_aux fuel rest
    | [] => []

/-- `re.sub(rb"\x1b\[[0-9;?]*[a-zA-Z]", b"", data)` from
`WindowsPTYProcess._filter_escape_sequences`: scanning left to right,
delete every `ESC [ params letter` sequence.  Since the pattern is anchored
at the `ESC` byte and parameter bytes and letters are disjoint, the greedy
scan is exactly Python's leftmost-match semantics. -/
def filter_escape_sequences (s : List Nat) : List Nat :=
  filter_escape_aux s.length s

/-- Result of one underlying PTY read attempt: data, or an exception. -/
inductive ReadRes where
  | ok (d : List Nat)
  | exn
deriving DecidableEq

/-- `WindowsPTYProcess.read`: if closed return `b""`; try a non-blocking
read, post-process and return if non-empty; otherwise sleep and retry once;
any exception yields `b""`.  `att1`/`att2` are the two attempts of the
underlying `self._pty.read(blocking=False)` (already UTF-8 encoded). -/
def windows_pty_read (closed : Bool) (att1 att2 : ReadRes) : List Nat :=
  if closed then []
  else
    match att1 with
    | .exn => []
    | .ok d1 =>
      if d1 ≠ [] then filter_escape_sequences (replace_crcrlf d1)
      else
        match att2 with
        | .exn => []
        | .ok d2 =>
          if d2 ≠ [] then filter_escape_sequences (replace_crcrlf d2)
          else []

/-- The delivery function asserted by the claim (spec §8 "Windows
normalization"), with the CSI filter applied first and the normalization
second.  Stated from the claim's words, for comparison with the code. -/
def claimed_windows_delivery (o : List Nat) : List Nat :=
  replace_crcrlf (filter_escape_sequences o)

/-! ### Windows poll -/

/-- Environment of one `WindowsPTYProcess.poll` call: the child is running,
the child exited with a status, or the underlying handle raises. -/
inductive PollEnv where
  | running
  | exited (status : Int)
  | raises
deriving DecidableEq

/-- `WindowsPTYProcess.poll`: `0` when closed; `None` while alive; the exit
status when exited; and `0` when `isalive`/`get_exitstatus` raises. -/
def windows_pty_poll (closed : Bool) (env : PollEnv) : Option Int :=
  if closed then some 0
  else
    match env with
    | .running => none
    | .exited s => some s
    | .raises => some 0

/-- `WindowsPTYProcess.is_alive`: `poll() is None`. -/
def windows_pty_is_alive (closed : Bool) (env : PollEnv) : Bool :=
  (windows_pty_poll closed env).isNone

/-- `VirtualSerialPort.has_process_exited` over the Windows PTY:
`not is_alive()`. -/
def windows_has_process_exited (closed : Bool) (env : PollEnv) : Bool :=
  !(windows_pty_is_alive closed env)

/-! ### VirtualSerialPort

State and operations of `VirtualSerialPort`.  The PTY is an oracle
`pty : Nat → Nat → ReadRes` mapping a `(size, timeout_ms)` request to the
bytes the underlying `pty_process.read` returns (or an exception).  The
serial settings and modem lines are irrelevant to the claims and omitted.
-/

/-- The mutable state of `VirtualSerialPort` relevant to the claims. -/
structure VirtualSerialPort where
  pending_reboot_output : List Nat
  closed : Bool
  in_raw_repl : Bool
  in_waiting : Nat
  timeout_ms : Nat
deriving DecidableEq

/-- The port as constructed in `main()`: empty pending buffer, open, not in
raw REPL, `timeout=0.1` (100 ms). -/
def main_initial_serial : VirtualSerialPort :=
  { pending_reboot_output := []
    closed := false
    in_raw_repl := false
    in_waiting := 0
    timeout_ms := MAIN_VIRTUAL_SERIAL_TIMEOUT_MS }

/-- `VirtualSerialPort._update_raw_repl_state_from_response`. -/
def update_raw_repl_state_from_response (flag : Bool) (data : List Nat) : Bool :=
  if containsBytes RAW_REPL_BANNER data then true
  else if containsBytes (strBytes ">>>") data && flag then false
  else flag

/-- Outcome of one `VirtualSerialPort.read` call: the returned bytes, the
next state, and the request issued to the PTY (`none` when the PTY was not
touched). -/
structure ReadOutcome where
  data : List Nat
  state : VirtualSerialPort
  ptyReq : Option (Nat × Nat)
deriving DecidableEq

/-- `VirtualSerialPort.read(size)`: drain `pending_reboot_output` first;
then return `b""` if closed; otherwise read from the PTY with the stored
timeout, updating the raw-REPL flag from non-empty fresh data; an exception
marks the port closed and returns `b""`. -/
def VirtualSerialPort.read (s : VirtualSerialPort) (size : Nat)
    (pty : Nat → Nat → ReadRes) : ReadOutcome :=
  if s.pending_reboot_output ≠ [] then
    { data := s.pending_reboot_output.take size
      state := { s with pending_reboot_output := s.pending_reboot_output.drop size }
      ptyReq := none }
  else if s.closed then
    { data := [], state := s, ptyReq := none }
  else
    match pty size s.timeout_ms with
    | .ok d =>
      { data := d
        state :=
          { s with
            in_raw_repl :=
              if d ≠ [] then update_raw_repl_state_from_response s.in_raw_repl d
              else s.in_raw_repl }
        ptyReq := some (size, s.timeout_ms) }
    | .exn =>
      { data := [], state := { s with closed := true }, ptyReq := some (size, s.timeout_ms) }

/-- `VirtualSerialPort.write(data)`: `0` when closed; a byte `0x01` in the
data sets `in_raw_repl`, otherwise a byte `0x02` clears it; the write is
then delegated to the PTY (`ptyw` gives the written count, or raises).
Returns the count and the next state. -/
def VirtualSerialPort.write (s : VirtualSerialPort) (data : List Nat)
    (ptyw : List Nat → Option Nat) : Nat × VirtualSerialPort :=
  if s.closed then (0, s)
  else
    let s1 :=
      if data.contains CTRL_A then { s with in_raw_repl := true }
      else if data.contains CTRL_B then { s with in_raw_repl := false }
      else s
    match ptyw data with
    | some n => (n, s1)
    | none => (0, { s1 with closed := true })

/-- `VirtualSerialPort.update_in_waiting`: probe the PTY with `read(1,
timeout=0.001)`; a read byte is pushed onto the front of the pending buffer
and `in_waiting` becomes 1; an exception closes the port. -/
def VirtualSerialPort.update_in_waiting (s : VirtualSerialPort)
    (pty : Nat → Nat → ReadRes) : VirtualSerialPort :=
  if s.closed then { s with in_waiting := 0 }
  else
    match pty 1 1 with
    | .ok d =>
      if d ≠ [] then
        { s with pending_reboot_output := d ++ s.pending_reboot_output, in_waiting := 1 }
      else { s with in_waiting := 0 }
    | .exn => { s with closed := true, in_waiting := 0 }

/-- One iteration of `BaseRedirector.reader` with the child still alive:
the handle-exit branch is skipped and `serial.read(MP_BRIDGE_READ_BUFFER_SIZE)`
runs.  When the child has exited the iteration performs no serial read
(`none`). -/
def reader_iteration (s : VirtualSerialPort) (exited : Bool)
    (pty : Nat → Nat → ReadRes) : Option ReadOutcome :=
  if exited then none
  else some (s.read MP_BRIDGE_READ_BUFFER_SIZE pty)

/-! ### The restart dance (`_handle_process_exit` / `_reenter_raw_repl`)

Sends to the client always succeed in this model (`_safe_send` swallows
socket errors); the fault points are the PTY reads inside the drain loop,
which the `try`/`except` of `_reenter_raw_repl` guards.  The sequence of
PTY reads of the drain loop is an oracle `reads : Nat → ReadRes`.
-/

/-- Why the drain loop of `_reenter_raw_repl` stopped. -/
inductive DrainStop where
  | promptFound
  | emptyBudget
  | emptyBudgetHard
  | maxAttempts
deriving DecidableEq

/-- Result of the drain loop: an exception escaped, or the loop finished
with the accumulated bytes, the number of iterations run, the final
consecutive-empty-read counter, and the stop reason. -/
inductive DrainResult where
  | raised
  | done (acc : List Nat) (iters : Nat) (emptyReads : Nat) (reason : DrainStop)
deriving DecidableEq

/-- `max_empty_reads = 10 if IS_WINDOWS else 5`. -/
def max_empty_reads (isWindows : Bool) : Nat :=
  if isWindows then 10 else 5

/-- The accumulated bytes contain the raw-REPL banner and, right-trimmed,
end in `b">"` — the drain completion test of `_reenter_raw_repl`. -/
def prompt_seen (acc : List Nat) : Bool :=
  containsBytes RAW_REPL_BANNER acc && (pyRstrip acc).getLast? = some 62

/-- The drain loop body of `_reenter_raw_repl`, indexed by the current
iteration `i`, remaining fuel (`max_attempts` minus iterations run), the
accumulated bytes and the consecutive-empty-read counter. -/
def drain_loop_aux (maxEmpty : Nat) (reads : Nat → ReadRes) :
    Nat → Nat → List Nat → Nat → DrainResult
  | i, 0, acc, e => .done acc i e .maxAttempts
  | i, rem + 1, acc, e =>
    match reads i with
    | .exn => .raised
    | .ok chunk =>
      if chunk ≠ [] then
        let acc2 := acc ++ chunk
        if prompt_seen acc2 then .done acc2 (i + 1) 0 .promptFound
        else drain_loop_aux maxEmpty reads (i + 1) rem acc2 0
      else
        if e + 1 > maxEmpty ∧ acc ≠ [] then .done acc (i + 1) (e + 1) .emptyBudget
        else if e + 1 > maxEmpty * 2 then .done acc (i + 1) (e + 1) .emptyBudgetHard
        else drain_loop_aux maxEmpty reads (i + 1) rem acc (e + 1)

/-- The drain loop of `_reenter_raw_repl`: `max_attempts = 50`, platform
empty-read budget, starting from empty accumulation. -/
def drain_loop (isWindows : Bool) (reads : Nat → ReadRes) : DrainResult :=
  drain_loop_aux (max_empty_reads isWindows) reads 0 50 [] 0

/-- `BaseRedirector._reenter_raw_repl`: write CTRL-A, drain; on the normal
path send the fabricated reply once and set `in_raw_repl`.  Any exception
inside the `try` runs the first `except` block, which sends the friendly
banner *and* the fabricated reply and sets `in_raw_repl` (the second,
textually duplicated `except` block is unreachable).  Returns the list of
messages sent to the client and the final `in_raw_repl` flag. -/
def reenter_raw_repl (isWindows : Bool) (ctrlAWriteOk : Bool)
    (reads : Nat → ReadRes) : List (List Nat) × Bool :=
  if ctrlAWriteOk = false then
    ([MPREMOTE_SOFT_REBOOT, MPREMOTE_RAW_REPL_SOFT_REBOOT], true)
  else
    match drain_loop isWindows reads with
    | .raised => ([MPREMOTE_SOFT_REBOOT, MPREMOTE_RAW_REPL_SOFT_REBOOT], true)
    | .done _ _ _ _ => ([MPREMOTE_RAW_REPL_SOFT_REBOOT], true)

/-- Result of `_handle_process_exit`: the messages sent to the client, the
returned boolean (process restarted, reader loop continues) and whether the
redirector is still alive. -/
structure HandleExitResult where
  sent : List (List Nat)
  restarted : Bool
  alive : Bool
deriving DecidableEq

/-- `BaseRedirector._handle_process_exit` followed by `_complete_restart`:
no-op unless the child exited; in friendly mode the `soft reboot` banner is
sent before the restart; a failed restart kills the session; in raw mode
`_reenter_raw_repl` runs, otherwise a non-empty startup `banner` is
forwarded.  (`_read_banner` swallows its own exceptions.) -/
def handle_process_exit (exited wasRaw canRestart restartOk isWindows : Bool)
    (banner : List Nat) (ctrlAWriteOk : Bool) (reads : Nat → ReadRes) :
    HandleExitResult :=
  if !exited then { sent := [], restarted := false, alive := true }
  else
    let pre := if !wasRaw then [MPREMOTE_SOFT_REBOOT] else []
    if !canRestart then { sent := pre, restarted := false, alive := false }
    else if !restartOk then { sent := pre, restarted := false, alive := false }
    else if wasRaw then
      { sent := pre ++ (reenter_raw_repl isWindows ctrlAWriteOk reads).1
        restarted := true, alive := true }
    else
      { sent := pre ++ (if banner ≠ [] then [banner] else [])
        restarted := true, alive := true }

/-- Number of reboot banners (friendly or fabricated) among the messages
sent to the client. -/
def count_reboot_banners (msgs : List (List Nat)) : Nat :=
  (msgs.filter
    (fun m => m = MPREMOTE_SOFT_REBOOT || m = MPREMOTE_RAW_REPL_SOFT_REBOOT)).length

/-! ### Listener / dispatcher (`run_server_loop` + `_reject_pending_connections`)

An interleaving model.  The main accept loop is single threaded: while a
session runs it is blocked inside `redirector.shortcircuit()`, so a new
client can only be accepted when no session is active.  The connection
guard thread runs only while a session is active and handles one pending
connection on the other listener per step: accept, send the rejection
banner, close.  Steps are explicit actions; `bridgeStep` returns `none`
when the action is not enabled in the given state.
-/

/-- The two listeners. -/
inductive Proto where
  | rfc2217
  | rawsock
deriving DecidableEq

/-- A connection waiting in a listener backlog.  `duringSession` records
whether a session was active at the moment the connection arrived. -/
structure PendingConn where
  id : Nat
  proto : Proto
  duringSession : Bool
deriving DecidableEq

/-- Observable state of the accept loop and the connection guard. -/
structure BridgeState where
  /-- Listener of the currently active session, if any. -/
  session : Option Proto
  /-- Ids of accepted, non-rejected, not-yet-closed clients. -/
  accepted : List Nat
  /-- Connections in the listener backlogs, oldest first. -/
  pending : List PendingConn
  /-- Connections the guard rejected, with the bytes sent before closing. -/
  rejected : List (Nat × List Nat)
  /-- Ids of connections that arrived while a session was active. -/
  arrivedDuringSession : List Nat
  nextId : Nat
deriving DecidableEq

/-- Initial state: no session, nothing pending. -/
def initBridge : BridgeState :=
  { session := none, accepted := [], pending := [], rejected := []
    arrivedDuringSession := [], nextId := 0 }

/-- Scheduler actions of the model. -/
inductive BridgeAction where
  /-- A remote peer connects to listener `p`. -/
  | connect (p : Proto)
  /-- The main loop accepts the oldest pending connection on `p`
  (only possible while no session is active) and starts its session. -/
  | acceptClient (p : Proto)
  /-- The guard thread handles the oldest pending connection on the
  non-session listener: accept, send the rejection banner, close. -/
  | guardReject
  /-- The active session ends: the client socket is closed and the main
  loop resumes accepting. -/
  | sessionEnd
deriving DecidableEq

/-- One interleaving step; `none` when the action is not enabled. -/
def bridgeStep (s : BridgeState) : BridgeAction → Option BridgeState
  | .connect p =>
    some
      { s with
        pending := s.pending ++ [⟨s.nextId, p, s.session.isSome⟩]
        arrivedDuringSession :=
          if s.session.isSome then s.arrivedDuringSession ++ [s.nextId]
          else s.arrivedDuringSession
        nextId := s.nextId + 1 }
  | .acceptClient p =>
    match s.session with
    | some _ => none
    | none =>
      match s.pending.find? (fun c => c.proto = p) with
      | none => none
      | some c =>
        some
          { s with
            session := some p
            accepted := s.accepted ++ [c.id]
            pending := s.pending.filter (fun x => x.id ≠ c.id) }
  | .guardReject =>
    match s.session with
    | none => none
    | some activeP =>
      match s.pending.find? (fun c => c.proto ≠ activeP) with
      | none => none
      | some c =>
        some
          { s with
            pending := s.pending.filter (fun x => x.id ≠ c.id)
            rejected := s.rejected ++ [(c.id, REJECTION_BANNER)] }
  | .sessionEnd =>
    match s.session with
    | none => none
    | some _ => some { s with session := none, accepted := [] }

/-- Run a list of actions from a state; `none` if any action is not
enabled. -/
def bridgeRunFrom (s : BridgeState) : List BridgeAction → Option BridgeState
  | [] => some s
  | a :: rest =>
    match bridgeStep s a with
    | none => none
    | some s2 => bridgeRunFrom s2 rest

/-- Run a list of actions from the initial state. -/
def bridgeRun (acts : List BridgeAction) : Option BridgeState :=
  bridgeRunFrom initBridge acts

/-- The single-active-client invariant together with the auxiliary facts
that make it inductive, and the guard-banner property. -/
def bridgeInvariant (s : BridgeState) : Prop :=
  s.accepted.length ≤ 1 ∧
  (s.session = none → s.accepted = []) ∧
  (∀ p ∈ s.rejected, p.2 = REJECTION_BANNER)

/-! ## Theorems -/

/-- C5: for every `n > 0`, if the pending buffer is non-empty then
`VirtualSerialPort.read(n)` returns exactly the first
`min(n, |pending|)` bytes of `pending`, removes exactly those bytes from
`pending`, and performs no read on the PTY. -/
theorem read_pending_precedence
    (s : VirtualSerialPort) (n : Nat) (pty : Nat → Nat → ReadRes)
    (hn : 0 < n) (hp : s.pending_reboot_output ≠ []) :
    (s.read n pty).data = s.pending_reboot_output.take n ∧
    (s.read n pty).data.length = min n s.pending_reboot_output.length ∧
    (s.read n pty).state.pending_reboot_output = s.pending_reboot_output.drop n ∧
    (s.read n pty).ptyReq = none := by
  simp [VirtualSerialPort.read, hp, List.length_take]

/-- Witness for C5: reading 2 bytes from a port with pending `[7, 8, 9]`
yields `[7, 8]`, leaves `[9]` pending, and issues no PTY request. -/
theorem read_pending_precedence_witness :
    (VirtualSerialPort.read ⟨[7, 8, 9], false, false, 0, 100⟩ 2 (fun _ _ => ReadRes.exn)).data
      = [7, 8] ∧
    (VirtualSerialPort.read ⟨[7, 8, 9], false, false, 0, 100⟩ 2
        (fun _ _ => ReadRes.exn)).state.pending_reboot_output = [9] ∧
    (VirtualSerialPort.read ⟨[7, 8, 9], false, false, 0, 100⟩ 2 (fun _ _ => ReadRes.exn)).ptyReq
      = none := by
  have h := read_pending_precedence ⟨[7, 8, 9], false, false, 0, 100⟩ 2
    (fun _ _ => ReadRes.exn) (by decide) (by decide)
  exact ⟨h.1.trans (by decide), h.2.2.1.trans (by decide), h.2.2.2⟩

/-- C9: for every `n > 0`, a closed port with a non-empty pending buffer
still serves bytes from `pending` (non-empty result, no PTY touch); only
with an empty pending buffer does a closed port return the empty byte
string. -/
theorem read_closed_pending_precedence
    (s : VirtualSerialPort) (n : Nat) (pty : Nat → Nat → ReadRes)
    (hn : 0 < n) (hc : s.closed = true) :
    (s.pending_reboot_output ≠ [] →
      (s.read n pty).data = s.pending_reboot_output.take n ∧
      (s.read n pty).data ≠ [] ∧
      (s.read n pty).ptyReq = none) ∧
    (s.pending_reboot_output = [] →
      (s.read n pty).data = [] ∧ (s.read n pty).ptyReq = none) := by
  constructor
  · intro hp
    refine ⟨by simp [VirtualSerialPort.read, hp], ?_, by simp [VirtualSerialPort.read, hp]⟩
    have hd : (s.read n pty).data = s.pending_reboot_output.take n := by
      simp [VirtualSerialPort.read, hp]
    rw [hd]
    intro hnil
    rcases List.take_eq_nil_iff.mp hnil with h | h
    · omega
    · exact hp h
  · intro hp
    simp [VirtualSerialPort.read, hp, hc]

/-- Witness for C9: a closed port with pending `[62]` serves `[62]` on
`read 1`; the same port with the pending buffer drained returns `b""`. -/
theorem read_closed_pending_precedence_witness :
    ((VirtualSerialPort.read ⟨[62], true, false, 0, 100⟩ 1 (fun _ _ => ReadRes.exn)).data = [62] ∧
      (VirtualSerialPort.read ⟨[62], true, false, 0, 100⟩ 1 (fun _ _ => ReadRes.exn)).ptyReq = none) ∧
    (VirtualSerialPort.read ⟨[], true, false, 0, 100⟩ 1 (fun _ _ => ReadRes.exn)).data = [] := by
  have h1 := read_closed_pending_precedence ⟨[62], true, false, 0, 100⟩ 1
    (fun _ _ => ReadRes.exn) (by decide) (by decide)
  have h2 := read_closed_pending_precedence ⟨[], true, false, 0, 100⟩ 1
    (fun _ _ => ReadRes.exn) (by decide) (by decide)
  exact ⟨⟨((h1.1 (by decide)).1).trans (by decide), (h1.1 (by decide)).2.2⟩,
    (h2.2 (by decide)).1⟩

/-- C10: the raw-REPL detection runs only on bytes freshly read from the
PTY by `VirtualSerialPort.read`: a read served from the pending buffer
leaves `in_raw_repl` unchanged, `update_in_waiting` (which re-queues the
probed byte through `pending`) leaves `in_raw_repl` unchanged, and a fresh
non-empty PTY read sets the flag exactly to
`_update_raw_repl_state_from_response` of the old flag and the data. -/
theorem raw_repl_flag_only_fresh_reads
    (s : VirtualSerialPort) (n : Nat) (pty : Nat → Nat → ReadRes) (d : List Nat) :
    (s.pending_reboot_output ≠ [] →
      (s.read n pty).state.in_raw_repl = s.in_raw_repl) ∧
    ((s.update_in_waiting pty).in_raw_repl = s.in_raw_repl) ∧
    (s.pending_reboot_output = [] → s.closed = false →
      pty n s.timeout_ms = .ok d → d ≠ [] →
      (s.read n pty).state.in_raw_repl
        = update_raw_repl_state_from_response s.in_raw_repl d) := by
  refine ⟨fun hp => by simp [VirtualSerialPort.read, hp], ?_, ?_⟩
  · unfold VirtualSerialPort.update_in_waiting
    split
    · rfl
    · cases hr : pty 1 1 with
      | ok d0 =>
        by_cases hd0 : d0 = [] <;> simp [hd0]
      | exn => simp
  · intro hp hc hok hd
    simp [VirtualSerialPort.read, hp, hc, hok, hd]

/-- Witness for C10: with `[4]` pending a read leaves the flag unchanged
even though `update_in_waiting` prepended it, while a fresh read of the
raw-REPL banner flips the flag on. -/
theorem raw_repl_flag_only_fresh_reads_witness :
    ((VirtualSerialPort.read ⟨[4], false, false, 0, 100⟩ 1
        (fun _ _ => ReadRes.ok RAW_REPL_BANNER)).state.in_raw_repl = false) ∧
    ((VirtualSerialPort.update_in_waiting ⟨[], false, false, 0, 100⟩
        (fun _ _ => ReadRes.ok [4])).in_raw_repl = false) ∧
    ((VirtualSerialPort.read ⟨[], false, false, 0, 100⟩ 1
        (fun _ _ => ReadRes.ok RAW_REPL_BANNER)).state.in_raw_repl
      = update_raw_repl_state_from_response false RAW_REPL_BANNER) := by
  have h1 := raw_repl_flag_only_fresh_reads ⟨[4], false, false, 0, 100⟩ 1
    (fun _ _ => ReadRes.ok RAW_REPL_BANNER) RAW_REPL_BANNER
  have h2 := raw_repl_flag_only_fresh_reads ⟨[], false, false, 0, 100⟩ 1
    (fun _ _ => ReadRes.ok [4]) [4]
  have h3 := raw_repl_flag_only_fresh_reads ⟨[], false, false, 0, 100⟩ 1
    (fun _ _ => ReadRes.ok RAW_REPL_BANNER) RAW_REPL_BANNER
  exact ⟨h1.1 (by decide), h2.2.1, h3.2.2 rfl rfl rfl (by decide)⟩

/-- C6 counterexample: the claim — every write whose data contains `0x01`
sets `in_raw_repl` and every write whose data contains `0x02` clears it —
is false: for `d = b"\x01\x02"` (which contains `0x02`) the write leaves
`in_raw_repl = true`, because the code tests `0x02` only in an `elif`. -/
theorem write_raw_repl_claim_counterexample :
    ¬ (∀ (s : VirtualSerialPort) (d : List Nat) (ptyw : List Nat → Option Nat),
        (CTRL_A ∈ d → ((s.write d ptyw).2).in_raw_repl = true) ∧
        (CTRL_B ∈ d → ((s.write d ptyw).2).in_raw_repl = false)) := by
  intro h
  have h2 := (h main_initial_serial [CTRL_A, CTRL_B] (fun d => some d.length)).2 (by decide)
  exact absurd h2 (by decide)

/-- C6 (amended): for a non-closed port, a write whose data contains `0x01`
sets `in_raw_repl`; otherwise, if the data contains `0x02`, the write
clears it; a write containing neither leaves the flag unchanged.  (A write
on a closed port returns 0 without touching the flag.) -/
theorem write_raw_repl_tracking
    (s : VirtualSerialPort) (d : List Nat) (ptyw : List Nat → Option Nat)
    (hc : s.closed = false) :
    (CTRL_A ∈ d → ((s.write d ptyw).2).in_raw_repl = true) ∧
    (CTRL_A ∉ d → CTRL_B ∈ d → ((s.write d ptyw).2).in_raw_repl = false) ∧
    (CTRL_A ∉ d → CTRL_B ∉ d → ((s.write d ptyw).2).in_raw_repl = s.in_raw_repl) := by
  refine ⟨fun ha => ?_, fun ha hb => ?_, fun ha hb => ?_⟩
  · cases hw : ptyw d <;> simp [VirtualSerialPort.write, hc, ha, hw]
  · cases hw : ptyw d <;> simp [VirtualSerialPort.write, hc, ha, hb, hw]
  · cases hw : ptyw d <;> simp [VirtualSerialPort.write, hc, ha, hb, hw]

/-- Witness for C6: a write of `b"\x01"` on the freshly constructed port
sets `in_raw_repl`. -/
theorem write_raw_repl_tracking_witness :
    ((main_initial_serial.write [CTRL_A] (fun d => some d.length)).2).in_raw_repl = true := by
  exact (write_raw_repl_tracking main_initial_serial [CTRL_A]
    (fun d => some d.length) rfl).1 (by decide)

/-- C4 counterexample: the claim — every non-exit reader iteration reads
from the `VirtualSerial` with a 10 ms timeout — is false for the bridge as
`main` builds it: `main` constructs the `VirtualSerialPort` with
`timeout=0.1`, so the PTY request of a reader iteration carries a 100 ms
timeout, not `MP_BRIDGE_READ_TIMEOUT` (10 ms). -/
theorem reader_timeout_claim_counterexample :
    ¬ (∀ (pty : Nat → Nat → ReadRes) (o : ReadOutcome),
        reader_iteration main_initial_serial false pty = some o →
        ∀ sz t, o.ptyReq = some (sz, t) → t = MP_BRIDGE_READ_TIMEOUT_MS) := by
  intro h
  have h2 := h (fun _ _ => ReadRes.ok [65])
    (main_initial_serial.read MP_BRIDGE_READ_BUFFER_SIZE (fun _ _ => ReadRes.ok [65]))
    rfl 4096 100 (by decide)
  exact absurd h2 (by decide)

/-- C4 (amended): in every reader iteration in which the child has not
exited, at most `MP_BRIDGE_READ_BUFFER_SIZE` (4096) bytes are read from the
`VirtualSerial`, and any PTY request it issues asks for 4096 bytes with the
100 ms timeout `main` configured (`timeout=0.1`), not the 10 ms
`MP_BRIDGE_READ_TIMEOUT` default. -/
theorem reader_iteration_read_bounds
    (s : VirtualSerialPort) (pty : Nat → Nat → ReadRes)
    (hpty : ∀ sz t d, pty sz t = .ok d → d.length ≤ sz)
    (ht : s.timeout_ms = MAIN_VIRTUAL_SERIAL_TIMEOUT_MS) :
    ∃ o, reader_iteration s false pty = some o ∧
      o.data.length ≤ MP_BRIDGE_READ_BUFFER_SIZE ∧
      (∀ sz t, o.ptyReq = some (sz, t) →
        sz = MP_BRIDGE_READ_BUFFER_SIZE ∧ t = MAIN_VIRTUAL_SERIAL_TIMEOUT_MS) := by
  refine ⟨s.read MP_BRIDGE_READ_BUFFER_SIZE pty, rfl, ?_, ?_⟩
  · unfold VirtualSerialPort.read
    split
    · simp only [List.length_take]
      omega
    · split
      · simp
      · cases hr : pty MP_BRIDGE_READ_BUFFER_SIZE s.timeout_ms with
        | ok d => simpa using hpty _ _ d hr
        | exn => simp
  · intro sz t hreq
    unfold VirtualSerialPort.read at hreq
    split at hreq
    · simp at hreq
    · split at hreq
      · simp at hreq
      · cases hr : pty MP_BRIDGE_READ_BUFFER_SIZE s.timeout_ms with
        | ok d =>
          rw [hr] at hreq
          simp at hreq
          exact ⟨hreq.1.symm, by rw [← hreq.2, ht]⟩
        | exn =>
          rw [hr] at hreq
          simp at hreq
          exact ⟨hreq.1.symm, by rw [← hreq.2, ht]⟩

/-- Witness for C4: the iteration on the main-configured port with a PTY
returning one byte. -/
theorem reader_iteration_read_bounds_witness :
    ∃ o, reader_iteration main_initial_serial false
        (fun _ _ => ReadRes.ok []) = some o ∧
      o.data.length ≤ MP_BRIDGE_READ_BUFFER_SIZE ∧
      (∀ sz t, o.ptyReq = some (sz, t) →
        sz = MP_BRIDGE_READ_BUFFER_SIZE ∧ t = MAIN_VIRTUAL_SERIAL_TIMEOUT_MS) := by
  exact reader_iteration_read_bounds main_initial_serial (fun _ _ => ReadRes.ok [])
    (fun sz t d h => by cases h; simp) rfl

/-- C3 counterexample: the claim — the Windows reader delivers
`normalize(filter_csi(O))`, the CSI filter applied first — is false at
`O = b"\r\x1b[m\r\n"`: the code normalizes first and then filters, so it
returns `b"\r\r\n"`, while the claimed composition returns `b"\r\n"`. -/
theorem windows_normalization_order_counterexample :
    ¬ (∀ (o : List Nat), windows_pty_read false (.ok o) (.ok [])
        = claimed_windows_delivery o) := by
  intro h
  have h2 := h [13, 27, 91, 109, 13, 10]
  exact absurd h2 (by decide)

/-- C3 (amended): for every byte string `O` produced by the child on
Windows (delivered by either the first or the second read attempt),
`WindowsPTYProcess.read` delivers `filter_csi(normalize(O))` — the
`\r\r\n → \r\n` normalization is applied first and the CSI deletion
second; a closed PTY or an exception yields `b""`. -/
theorem windows_read_delivery
    (att2 : ReadRes) (o o2 : List Nat)
    (h1 : o ≠ []) (h2 : o2 ≠ []) :
    windows_pty_read false (.ok o) att2
      = filter_escape_sequences (replace_crcrlf o) ∧
    windows_pty_read false (.ok []) (.ok o2)
      = filter_escape_sequences (replace_crcrlf o2) ∧
    windows_pty_read true (.ok o) att2 = [] ∧
    windows_pty_read false .exn att2 = [] := by
  refine ⟨?_, ?_, rfl, rfl⟩
  · simp [windows_pty_read, h1]
  · simp [windows_pty_read, h2]

/-- Witness for C3: the delivery of `O = b"\r\x1b[m\r\n"` is
`filter_csi(normalize(O)) = b"\r\r\n"`. -/
theorem windows_read_delivery_witness :
    windows_pty_read false (.ok [13, 27, 91, 109, 13, 10]) (.ok [])
      = [13, 13, 10] := by
  exact (windows_read_delivery (.ok []) [13, 27, 91, 109, 13, 10] [65]
    (by decide) (by decide)).1.trans (by decide)

/-- Characterization of the drain loop body: with exception-free reads and
the inductive bounds on the consecutive-empty-read counter, the loop always
finishes within the remaining fuel, and each stop reason implies its stop
condition. -/
theorem drain_loop_aux_spec (maxEmpty : Nat) (reads : Nat → ReadRes)
    (hreads : ∀ i, reads i ≠ ReadRes.exn) :
    ∀ (rem i : Nat) (acc : List Nat) (e : Nat),
      (acc ≠ [] → e ≤ maxEmpty) → e ≤ 2 * maxEmpty →
      ∃ acc2 iters e2 reason,
        drain_loop_aux maxEmpty reads i rem acc e = .done acc2 iters e2 reason ∧
        iters ≤ i + rem ∧
        (reason = .promptFound → prompt_seen acc2 = true) ∧
        (reason = .emptyBudget → e2 = maxEmpty + 1 ∧ acc2 ≠ []) ∧
        (reason = .emptyBudgetHard → e2 = 2 * maxEmpty + 1 ∧ acc2 = []) := by
  intro rem
  induction rem with
  | zero =>
    intro i acc e _ _
    exact ⟨acc, i, e, .maxAttempts, rfl, Nat.le_refl _, by simp, by simp, by simp⟩
  | succ rem ih =>
    intro i acc e hae he
    cases hchunk : reads i with
    | exn => exact absurd hchunk (hreads i)
    | ok chunk =>
      by_cases hne : chunk = []
      · subst hne
        by_cases hbud : e + 1 > maxEmpty ∧ acc ≠ []
        · refine ⟨acc, i + 1, e + 1, .emptyBudget, ?_, by omega, by simp, ?_, by simp⟩
          · simp [drain_loop_aux, hchunk, hbud]
          · intro _
            have hle := hae hbud.2
            have hgt := hbud.1
            exact ⟨by omega, hbud.2⟩
        · by_cases hhard : e + 1 > maxEmpty * 2
          · have hacc : acc = [] := by
              by_contra hacc
              have hle := hae hacc
              exact hbud ⟨by omega, hacc⟩
            refine ⟨acc, i + 1, e + 1, .emptyBudgetHard, ?_, by omega, by simp, by simp, ?_⟩
            · simp [drain_loop_aux, hchunk, hbud, hhard]
            · intro _
              exact ⟨by omega, hacc⟩
          · have hstep :
                drain_loop_aux maxEmpty reads i (rem + 1) acc e
                  = drain_loop_aux maxEmpty reads (i + 1) rem acc (e + 1) := by
              simp [drain_loop_aux, hchunk, hbud, hhard]
            obtain ⟨acc2, iters, e2, reason, hrun, hiters, hp, hb, hh⟩ :=
              ih (i + 1) acc (e + 1)
                (fun ha => by
                  have h1 := hae ha
                  have h2 : ¬ (e + 1 > maxEmpty) := fun hgt => hbud ⟨hgt, ha⟩
                  omega)
                (by omega)
            exact ⟨acc2, iters, e2, reason, hstep.trans hrun, by omega, hp, hb, hh⟩
      · by_cases hps : prompt_seen (acc ++ chunk) = true
        · refine ⟨acc ++ chunk, i + 1, 0, .promptFound, ?_, by omega, fun _ => hps,
            by simp, by simp⟩
          simp [drain_loop_aux, hchunk, hne, hps]
        · have hstep :
              drain_loop_aux maxEmpty reads i (rem + 1) acc e
                = drain_loop_aux maxEmpty reads (i + 1) rem (acc ++ chunk) 0 := by
            simp [drain_loop_aux, hchunk, hne, hps]
          obtain ⟨acc2, iters, e2, reason, hrun, hiters, hp, hb, hh⟩ :=
            ih (i + 1) (acc ++ chunk) 0 (fun _ => by omega) (by omega)
          exact ⟨acc2, iters, e2, reason, hstep.trans hrun, by omega, hp, hb, hh⟩

/-- C7 counterexample: the claim — the drain loop stops exactly at the
prompt, at the exhausted empty-read budget (5 on POSIX), or at the
50-iteration abort — is false: on POSIX with every read empty the loop
runs on past the exhausted budget and stops only after 11 consecutive empty
reads (the code doubles the budget while nothing has accumulated). -/
theorem drain_budget_claim_counterexample :
    ¬ (∀ (reads : Nat → ReadRes) (acc : List Nat) (iters e : Nat) (reason : DrainStop),
        drain_loop false reads = .done acc iters e reason →
        reason = .promptFound ∨ reason = .maxAttempts ∨
          e ≤ max_empty_reads false + 1) := by
  intro h
  have h2 := h (fun _ => ReadRes.ok []) [] 11 11 .emptyBudgetHard (by decide)
  rcases h2 with h2 | h2 | h2
  · exact absurd h2 (by decide)
  · exact absurd h2 (by decide)
  · exact absurd h2 (by decide)

/-- C7 (amended): the drain loop of `_reenter_raw_repl` always terminates
within 50 iterations, and (with exception-free reads) it stops exactly when
either (a) the accumulated bytes contain `"raw REPL; CTRL-B to exit"` and,
right-trimmed, end in `">"`, or (b) more than the platform empty-read
budget (5 on POSIX, 10 on Windows) of consecutive empty reads occur while
some data has accumulated, or more than twice that budget occur with
nothing accumulated, or (c) the unconditional 50-iteration abort fires. -/
theorem drain_loop_characterization (isWindows : Bool) (chunks : Nat → List Nat) :
    ∃ acc iters e reason,
      drain_loop isWindows (fun i => ReadRes.ok (chunks i)) = .done acc iters e reason ∧
      iters ≤ 50 ∧
      (reason = .promptFound → prompt_seen acc = true) ∧
      (reason = .emptyBudget → e = max_empty_reads isWindows + 1 ∧ acc ≠ []) ∧
      (reason = .emptyBudgetHard → e = 2 * max_empty_reads isWindows + 1 ∧ acc = []) := by
  obtain ⟨acc, iters, e, reason, hrun, hiters, hp, hb, hh⟩ :=
    drain_loop_aux_spec (max_empty_reads isWindows) (fun i => ReadRes.ok (chunks i))
      (fun i => by simp) 50 0 [] 0 (by simp) (by omega)
  exact ⟨acc, iters, e, reason, hrun, by omega, hp, hb, hh⟩

/-- Witness for C7: the all-empty POSIX drain stops after 11 iterations
with the doubled budget exhausted. -/
theorem drain_loop_characterization_witness :
    ∃ acc iters e reason,
      drain_loop false (fun _ => ReadRes.ok []) = .done acc iters e reason ∧
      iters ≤ 50 ∧
      (reason = .promptFound → prompt_seen acc = true) ∧
      (reason = .emptyBudget → e = max_empty_reads false + 1 ∧ acc ≠ []) ∧
      (reason = .emptyBudgetHard → e = 2 * max_empty_reads false + 1 ∧ acc = []) :=
  drain_loop_characterization false (fun _ => [])

/-- C1: evaluation of the restart dance at the failing input.  With the
child exited, `in_raw_repl` true and a successful restart, an exception
raised during the drain makes the first `except` block of
`_reenter_raw_repl` (the duplicated tail) send the friendly banner *and*
the fabricated raw-REPL reply: the client receives two reboot banners for
one exit, while the session stays alive, contradicting the
exactly-one-banner claim. -/
theorem handle_exit_exception_fallback_sends_two_banners :
    (handle_process_exit true true true true false [] true (fun _ => ReadRes.exn)).sent
      = [MPREMOTE_SOFT_REBOOT, MPREMOTE_RAW_REPL_SOFT_REBOOT] ∧
    count_reboot_banners
      (handle_process_exit true true true true false [] true (fun _ => ReadRes.exn)).sent = 2 ∧
    (handle_process_exit true true true true false [] true (fun _ => ReadRes.exn)).alive = true ∧
    (handle_process_exit true true true true false [] true (fun _ => ReadRes.exn)).restarted
      = true := by
  decide

/-- C8: evaluation at the failing input.  The Windows `poll` maps an
exception from the underlying handle to exit status `0`, exactly the value
of a genuine exit with status 0, so `has_process_exited` is true and the
reader runs the restart dance (`restarted = true`, session kept alive)
instead of treating the session as fatal. -/
theorem windows_poll_exception_collapse :
    windows_pty_poll false PollEnv.raises = some 0 ∧
    windows_pty_poll false (PollEnv.exited 0) = some 0 ∧
    windows_has_process_exited false PollEnv.raises = true ∧
    (handle_process_exit (windows_has_process_exited false PollEnv.raises)
        false true true true [65] true (fun _ => ReadRes.ok [])).restarted = true ∧
    (handle_process_exit (windows_has_process_exited false PollEnv.raises)
        false true true true [65] true (fun _ => ReadRes.ok [])).alive = true := by
  decide

/-- One step of the bridge model preserves the single-active-client
invariant and the guard-banner property. -/
theorem bridgeStep_invariant {s s2 : BridgeState} {a : BridgeAction}
    (hinv : bridgeInvariant s) (hstep : bridgeStep s a = some s2) :
    bridgeInvariant s2 := by
  obtain ⟨hlen, hsess, hrej⟩ := hinv
  cases a with
  | connect p =>
    simp only [bridgeStep, Option.some.injEq] at hstep
    subst hstep
    exact ⟨hlen, hsess, hrej⟩
  | acceptClient p =>
    simp only [bridgeStep] at hstep
    split at hstep
    · exact absurd hstep (by simp)
    · rename_i hs
      split at hstep
      · exact absurd hstep (by simp)
      · simp only [Option.some.injEq] at hstep
        subst hstep
        have hacc : s.accepted = [] := hsess hs
        exact ⟨by simp [hacc], by simp, hrej⟩
  | guardReject =>
    simp only [bridgeStep] at hstep
    split at hstep
    · exact absurd hstep (by simp)
    · split at hstep
      · exact absurd hstep (by simp)
      · simp only [Option.some.injEq] at hstep
        subst hstep
        refine ⟨hlen, hsess, ?_⟩
        intro p hp
        simp only [List.mem_append, List.mem_singleton] at hp
        rcases hp with hp | hp
        · exact hrej p hp
        · rw [hp]
  | sessionEnd =>
    simp only [bridgeStep] at hstep
    split at hstep
    · exact absurd hstep (by simp)
    · simp only [Option.some.injEq] at hstep
      subst hstep
      exact ⟨by simp, fun _ => rfl, hrej⟩

/-- Runs preserve the bridge invariant. -/
theorem bridgeRunFrom_invariant :
    ∀ (acts : List BridgeAction) (s s2 : BridgeState),
      bridgeInvariant s → bridgeRunFrom s acts = some s2 → bridgeInvariant s2 := by
  intro acts
  induction acts with
  | nil =>
    intro s s2 hinv hrun
    simp only [bridgeRunFrom, Option.some.injEq] at hrun
    subst hrun
    exact hinv
  | cons a rest ih =>
    intro s s2 hinv hrun
    simp only [bridgeRunFrom] at hrun
    cases hstep : bridgeStep s a with
    | none => rw [hstep] at hrun; exact absurd hrun (by simp)
    | some s1 =>
      rw [hstep] at hrun
      exact ih s1 s2 (bridgeStep_invariant hinv hstep) hrun

/-- C2 counterexample: the claim — every connection attempted on the other
listener while one client is active is rejected — is false: in the trace
below a raw-socket connection arrives during an active RFC 2217 session,
the session ends before the guard observes it, and the main loop then
accepts it as an ordinary client; it is never sent the rejection banner. -/
theorem busy_rejection_claim_counterexample :
    ¬ (∀ (acts : List BridgeAction) (s : BridgeState),
        bridgeRun acts = some s →
        ∀ id ∈ s.arrivedDuringSession, id ∉ s.accepted) := by
  intro h
  have h2 := h
    [BridgeAction.connect .rfc2217, BridgeAction.acceptClient .rfc2217,
      BridgeAction.connect .rawsock, BridgeAction.sessionEnd,
      BridgeAction.acceptClient .rawsock]
    (⟨some .rawsock, [1], [], [], [1], 2⟩ : BridgeState)
    (by decide) 1 (by decide)
  exact h2 (by decide)

/-- C2 (amended): in every reachable state of the accept-loop model, the
number of accepted, non-rejected clients across both listeners is at most
1, and every connection the guard rejects is sent exactly the rejection
banner before being closed.  (A connection that arrives during a session
but is only handled after the session ends may instead be accepted as the
next client, as the counterexample shows.) -/
theorem single_active_client (acts : List BridgeAction) (s : BridgeState)
    (h : bridgeRun acts = some s) :
    s.accepted.length ≤ 1 ∧ ∀ p ∈ s.rejected, p.2 = REJECTION_BANNER := by
  have hinv := bridgeRunFrom_invariant acts initBridge s
    ⟨by simp [initBridge], fun _ => rfl, by simp [initBridge]⟩ h
  exact ⟨hinv.1, hinv.2.2⟩

/-- Witness for C2: a trace in which the guard rejects a raw-socket
connection during an RFC 2217 session. -/
theorem single_active_client_witness :
    (⟨some .rfc2217, [0], [], [(1, REJECTION_BANNER)], [1], 2⟩ : BridgeState).accepted.length
      ≤ 1 ∧
    ∀ p ∈ (⟨some .rfc2217, [0], [], [(1, REJECTION_BANNER)], [1], 2⟩ : BridgeState).rejected,
      p.2 = REJECTION_BANNER := by
  exact single_active_client
    [BridgeAction.connect .rfc2217, BridgeAction.acceptClient .rfc2217,
      BridgeAction.connect .rawsock, BridgeAction.guardReject]
    (⟨some .rfc2217, [0], [], [(1, REJECTION_BANNER)], [1], 2⟩ : BridgeState) (by decide)

end MpBridge
